import Mathlib

/-!
Shallow embedding of the element / element-list framework of eduid-userdb
(src/eduid_userdb/element.py, event.py, mail.py, tou.py), together with
theorems settling the claims about it.

Modelling conventions:
* A Python `_data` dict of a concrete element is a Lean structure whose
  `Option` fields encode key presence (`none` = key absent, which is how the
  code itself treats absence: the setters never store `None`).
* Exceptions are an explicit `Err` value; an operation that can raise while
  also mutating its list returns `Option Err × List _` (the error, if any,
  and the list state observable after the call).
* `isinstance` checks on values that are well-typed by construction in the
  embedding always pass and are not represented.
-/

namespace EduidUserdb

abbrev Str := String

/-- `datetime.datetime` values are opaque scalars here. -/
abbrev Time := Nat

/-- The exception classes raised by the embedded code
(`eduid_userdb.exceptions` and `eduid_userdb.element`). -/
inductive Err where
  | userDBValueError
  | eduIDUserDBError
  | duplicateElementViolation
  | primaryElementViolation
  | userHasUnknownData
  deriving DecidableEq, Repr

/-- `DateTimeDefault = Union[datetime.datetime, Literal[True], None]`:
a timestamp, the sentinel `True` (meaning `datetime.utcnow()`), or `None`. -/
inductive DateTimeDefault where
  | dtNone
  | dtNow
  | dtSome (t : Time)
  deriving DecidableEq, Repr

/-- `element._set_something_by(data, key, value, allow_update)`: `data` is the
current value stored under `key` (`none` when the key is absent). The
write-once guard fires before the `value is None` early return. -/
def _set_something_by (data : Option Str) (value : Option Str)
    (allow_update : Bool) : Except Err (Option Str) :=
  if data.isSome && !allow_update then .error .userDBValueError
  else
    match value with
    | none => .ok data
    | some v => .ok (some v)

/-- `element._set_something_ts(data, key, value, allow_update)`; `now` is what
`datetime.utcnow()` returns when the `True` sentinel is passed. -/
def _set_something_ts (data : Option Time) (value : DateTimeDefault)
    (allow_update : Bool) (now : Time) : Except Err (Option Time) :=
  if data.isSome && !allow_update then .error .userDBValueError
  else
    match value with
    | .dtNone => .ok data
    | .dtNow => .ok (some now)
    | .dtSome t => .ok (some t)

/-- The `_data` dict of a `PrimaryElement` (element.py), plus its abstract
`key` property. `verified` and `primary` are always present in `_data`
(the constructor always stores them); the rest may be absent. -/
structure PrimaryElement where
  key : Str
  created_by : Option Str
  created_ts : Option Time
  verified : Bool
  verified_by : Option Str
  verified_ts : Option Time
  primary : Bool
  deriving DecidableEq, Repr

/-- `ElementList.find(key)`: linear scan by key; `.ok none` models the
`False` return, and more than one match raises `EduIDUserDBError`. -/
def ElementList.find {α : Type} (keyOf : α → Str) (elements : List α)
    (key : Str) : Except Err (Option α) :=
  match elements.filter (fun x => keyOf x == key) with
  | [] => .ok none
  | [x] => .ok (some x)
  | _ => .error .eduIDUserDBError

/-- `ElementList.count`. -/
def ElementList.count {α : Type} (elements : List α) : Nat :=
  elements.length

/-- `PrimaryElementList._get_primary(elements)` (the local `verified` list is
inlined). Raises only `PrimaryElementViolation`. -/
def _get_primary (elements : List PrimaryElement) :
    Except Err (Option PrimaryElement) :=
  if elements = [] then .ok none
  else if elements.filter (fun x => x.verified) = [] then
    if (elements.filter (fun e => e.primary)).length > 0 then
      .error .primaryElementViolation
    else .ok none
  else
    match (elements.filter (fun x => x.verified)).filter
        (fun x => x.primary) with
    | [x] => .ok (some x)
    | _ => .error .primaryElementViolation

/-- `PrimaryElementList._check_primary(old_list)`: validates the current
`elements`; on `PrimaryElementViolation` assigns `copy.copy(old_list)` back to
`self._elements` and re-raises. The caller passes whatever object `old_list`
refers to AT RESTORE TIME, which matters for `add` (see below). -/
def _check_primary (old_list elements : List PrimaryElement) :
    Option Err × List PrimaryElement :=
  match _get_primary elements with
  | .error e => (some e, old_list)
  | .ok _ => (none, elements)

/-- `PrimaryElementList.__init__(elements)`: runs `_get_primary` over the
input and keeps it unchanged when the check passes. -/
def PrimaryElementList.init (elements : List PrimaryElement) :
    Except Err (List PrimaryElement) :=
  match _get_primary elements with
  | .error e => .error e
  | .ok _ => .ok elements

/-- `PrimaryElementList.add(element)`. In the source, `old_list =
self._elements` binds the same list object that `ElementList.add` then
mutates in place via `append`; by the time `_check_primary` restores from
`old_list`, that object already holds the appended element. Both arguments
of `_check_primary` are therefore the appended list. -/
def PrimaryElementList.add (l : List PrimaryElement) (e : PrimaryElement) :
    Option Err × List PrimaryElement :=
  match ElementList.find PrimaryElement.key l e.key with
  | .error er => (some er, l)
  | .ok (some _) => (some .duplicateElementViolation, l)
  | .ok none => _check_primary (l ++ [e]) (l ++ [e])

/-- `PrimaryElementList.remove(key)`. Here `ElementList.remove` rebinds
`self._elements` to a freshly built filtered list, so `old_list` still holds
the pre-removal elements and the restore is effective. The filter drops the
found element (object identity coincides with structural equality here,
since `find` succeeded with a single key match). -/
def PrimaryElementList.remove (l : List PrimaryElement) (key : Str) :
    Option Err × List PrimaryElement :=
  match ElementList.find PrimaryElement.key l key with
  | .error er => (some er, l)
  | .ok none => (some .userDBValueError, l)
  | .ok (some m) => _check_primary l (l.filter (fun this => this != m))

/-- The body of the loop in the `primary` setter:
`this.is_primary = bool(this.key == key)`. -/
def set_primary_flag (key : Str) : PrimaryElement → PrimaryElement :=
  fun this => { this with primary := this.key == key }

/-- The `PrimaryElementList.primary` setter. -/
def PrimaryElementList.set_primary (l : List PrimaryElement) (key : Str) :
    Option Err × List PrimaryElement :=
  match ElementList.find PrimaryElement.key l key with
  | .error er => (some er, l)
  | .ok none => (some .userDBValueError, l)
  | .ok (some m) =>
    if !m.verified then (some .primaryElementViolation, l)
    else (none, l.map (set_primary_flag key))

/-- The `PrimaryElementList.primary` getter. -/
def PrimaryElementList.primary (l : List PrimaryElement) :
    Except Err (Option PrimaryElement) :=
  _get_primary l

/-- The `_data` dict of a `MailAddress` (mail.py). `email`, `verified` and
`primary` are always stored by the constructor. -/
structure MailAddress where
  email : Str
  created_by : Option Str
  created_ts : Option Time
  verified : Bool
  verified_by : Option Str
  verified_ts : Option Time
  primary : Bool
  deriving DecidableEq, Repr

/-- `MailAddress.__init__`: the only transformation the setters apply to
well-typed input is lower-casing the email; none of them can fail from a
fresh `_data`. `created_ts` is given as an already-resolved timestamp or
absent (the `True` sentinel case lives in `_set_something_ts`). -/
def MailAddress.init (email : Str) (created_by : Option Str)
    (created_ts : Option Time) (verified : Bool) (verified_by : Option Str)
    (verified_ts : Option Time) (primary : Bool) : MailAddress :=
  { email := email.toLower, created_by, created_ts,
    verified, verified_by, verified_ts, primary }

/-- `MailAddress.to_dict(old_userdb_format=False)` returns `self._data`. -/
def MailAddress.to_dict (x : MailAddress) : MailAddress := x

/-- `MailAddress.from_dict(data)`: `_known_data = ['email', 'created_by',
'created_ts', 'verified', 'primary']`; any other key present raises
`UserHasUnknownData`; then the constructor runs without `verified_by` or
`verified_ts` and with `primary` defaulting to `False` when absent (here
`primary` is always present in a serialized record). -/
def MailAddress.from_dict (data : MailAddress) : Except Err MailAddress :=
  if data.verified_by.isSome || data.verified_ts.isSome then
    .error .userHasUnknownData
  else
    .ok (MailAddress.init data.email data.created_by data.created_ts
      data.verified none none data.primary)

/-- The `_data` dict of an `Event` (event.py). `event_type` may be absent
(its setter ignores `None`); `event_id` is always present (its setter rejects
anything that is not an `ObjectId`, here modelled as a string). -/
structure Event where
  created_by : Option Str
  created_ts : Option Time
  event_type : Option Str
  event_id : Str
  deriving DecidableEq, Repr

/-- What `Event.to_dict()` with the default `mixed_format=False` returns:
a copy of `_data` with the `event_type` key removed. -/
structure EventRecord where
  created_by : Option Str
  created_ts : Option Time
  event_id : Str
  deriving DecidableEq, Repr

/-- `Event.to_dict()` (default arguments). -/
def Event.to_dict (e : Event) : EventRecord :=
  { created_by := e.created_by, created_ts := e.created_ts,
    event_id := e.event_id }

/-- `Event.key` is the `event_id`. -/
def Event.key (e : Event) : Str := e.event_id

/-- `EventList.add(event)`: on a key match, identical serialized content is
silently accepted (the list is returned unchanged), differing content raises
`DuplicateElementViolation`; otherwise the event is appended. -/
def EventList.add (l : List Event) (e : Event) : Option Err × List Event :=
  match ElementList.find Event.key l e.key with
  | .error er => (some er, l)
  | .ok (some existing) =>
    if Event.to_dict e = Event.to_dict existing then (none, l)
    else (some .duplicateElementViolation, l)
  | .ok none => (none, l ++ [e])

/-- A concrete `PrimaryElement` with only key and flags populated. -/
def mkPE (key : Str) (verified primary : Bool) : PrimaryElement :=
  { key, created_by := none, created_ts := none, verified,
    verified_by := none, verified_ts := none, primary }

/-- Whether `_get_primary` accepts a list: the collection invariant the code
actually enforces. -/
def check_ok (l : List PrimaryElement) : Bool :=
  match _get_primary l with
  | .ok _ => true
  | .error _ => false

/-- The `PrimaryElementList` states accepted by construction or reached from
one through a succeeding `add`, `remove` or `primary` setter call. -/
inductive Reachable : List PrimaryElement → Prop where
  | init (l l' : List PrimaryElement) :
      PrimaryElementList.init l = .ok l' → Reachable l'
  | add (l : List PrimaryElement) (e : PrimaryElement)
      (l' : List PrimaryElement) :
      Reachable l → PrimaryElementList.add l e = (none, l') → Reachable l'
  | remove (l : List PrimaryElement) (k : Str) (l' : List PrimaryElement) :
      Reachable l → PrimaryElementList.remove l k = (none, l') → Reachable l'
  | set_primary (l : List PrimaryElement) (k : Str)
      (l' : List PrimaryElement) :
      Reachable l → PrimaryElementList.set_primary l k = (none, l') →
      Reachable l'

end EduidUserdb

deriving instance DecidableEq for Except

namespace EduidUserdb

theorem mem_of_filter_key_single (l : List PrimaryElement) (k : Str)
    (m : PrimaryElement) (h : l.filter (fun x => x.key == k) = [m]) :
    m ∈ l ∧ (m.key == k) = true := by
  have hm : m ∈ l.filter (fun x => x.key == k) := by
    rw [h]; exact List.mem_singleton_self m
  exact List.mem_filter.mp hm

theorem find_of_filter_single {α : Type} (keyOf : α → Str) (l : List α)
    (k : Str) (m : α) (h : l.filter (fun x => keyOf x == k) = [m]) :
    ElementList.find keyOf l k = .ok (some m) := by
  unfold ElementList.find
  rw [h]

theorem find_of_filter_nil {α : Type} (keyOf : α → Str) (l : List α)
    (k : Str) (h : l.filter (fun x => keyOf x == k) = []) :
    ElementList.find keyOf l k = .ok none := by
  unfold ElementList.find
  rw [h]

theorem filter_single_of_find_some {α : Type} (keyOf : α → Str) (l : List α)
    (k : Str) (m : α) (h : ElementList.find keyOf l k = .ok (some m)) :
    l.filter (fun x => keyOf x == k) = [m] := by
  unfold ElementList.find at h
  rcases hf : l.filter (fun x => keyOf x == k) with _ | ⟨x, _ | ⟨y, t⟩⟩
  · rw [hf] at h; simp at h
  · rw [hf] at h
    simp only [Except.ok.injEq, Option.some.injEq] at h
    rw [h]
  · rw [hf] at h; simp at h

/-- Claim C1: a `PrimaryElementList.add` that trips the primary invariant
raises `PrimaryElementViolation` but does NOT restore the pre-add state: the
rollback copies `old_list`, which aliases the list `append` already mutated,
so the offending element stays in the list (count 2, new element a member). -/
theorem add_violation_keeps_appended_element :
    PrimaryElementList.init [mkPE "a@example.com" true true]
      = .ok [mkPE "a@example.com" true true] ∧
    PrimaryElementList.add [mkPE "a@example.com" true true]
      (mkPE "b@example.com" true true)
      = (some .primaryElementViolation,
        [mkPE "a@example.com" true true, mkPE "b@example.com" true true]) ∧
    mkPE "b@example.com" true true
      ∈ (PrimaryElementList.add [mkPE "a@example.com" true true]
          (mkPE "b@example.com" true true)).2 ∧
    ElementList.count (PrimaryElementList.add
      [mkPE "a@example.com" true true] (mkPE "b@example.com" true true)).2
      = 2 :=
  ⟨rfl, rfl, by decide, rfl⟩

/-- Claim C2: the serialization round-trip fails for a `MailAddress` whose
`verified_by` is set: `from_dict` rejects the very keys `to_dict` emits,
because its known-data list omits `verified_by` and `verified_ts`. -/
theorem mail_roundtrip_verified_by_fails :
    MailAddress.from_dict (MailAddress.to_dict
      (MailAddress.init "test@example.org" none none true
        (some "unit test") none true))
      = .error .userHasUnknownData := rfl

/-- Claim C3: assigning `None` to an already-set `created_by` or `created_ts`
raises `UserDBValueError` instead of being a no-op: the write-once guard in
`_set_something_by` and `_set_something_ts` runs before the `value is None`
early return. -/
theorem created_null_assignment_raises :
    _set_something_by (some "test created by") none false
      = .error .userDBValueError ∧
    _set_something_ts (some 1) .dtNone false 0 = .error .userDBValueError :=
  ⟨rfl, rfl⟩

/-- Claim C8: once `created_by` or `created_ts` holds a value, any non-null
assignment (identical values included, as the guard never inspects the new
value) raises `UserDBValueError`; `verified_by` and `verified_ts` use
`allow_update=True` and a non-null assignment overwrites. -/
theorem set_once_guard_and_verified_overwrite (s v : Str) (cur : Option Str)
    (t u now : Time) (curts : Option Time) :
    _set_something_by (some s) (some v) false = .error .userDBValueError ∧
    _set_something_ts (some t) (.dtSome u) false now
      = .error .userDBValueError ∧
    _set_something_by cur (some v) true = .ok (some v) ∧
    _set_something_ts curts (.dtSome u) true now = .ok (some u) :=
  ⟨rfl, rfl, by cases cur <;> rfl, by cases curts <;> rfl⟩

/-- Claim C9: adding an element whose key is already present raises
`DuplicateElementViolation` before any mutation, whatever the primary flags
of either element, and the list is unchanged. -/
theorem add_duplicate_key_rejected_unchanged (l : List PrimaryElement)
    (e m : PrimaryElement) (h : l.filter (fun x => x.key == e.key) = [m]) :
    PrimaryElementList.add l e = (some .duplicateElementViolation, l) := by
  unfold PrimaryElementList.add
  rw [find_of_filter_single PrimaryElement.key l e.key m h]

theorem add_duplicate_key_rejected_unchanged_witness :
    ([mkPE "a@example.com" true true].filter
      (fun x => x.key == (mkPE "a@example.com" false false).key)
      = [mkPE "a@example.com" true true]) ∧
    PrimaryElementList.add [mkPE "a@example.com" true true]
      (mkPE "a@example.com" false false)
      = (some .duplicateElementViolation, [mkPE "a@example.com" true true]) :=
  ⟨by decide, add_duplicate_key_rejected_unchanged
    [mkPE "a@example.com" true true] (mkPE "a@example.com" false false)
    (mkPE "a@example.com" true true) (by decide)⟩

/-- Claim C7: `EventList.add` of an event whose key matches an existing
event compares the full serialized content (`to_dict`): identical content is
a silent accept with the list (hence `count`) unchanged, differing content
raises `DuplicateElementViolation`. -/
theorem eventlist_add_duplicate_key (l : List Event) (e ex : Event)
    (h : l.filter (fun x => Event.key x == Event.key e) = [ex]) :
    (Event.to_dict e = Event.to_dict ex → EventList.add l e = (none, l)) ∧
    (Event.to_dict e ≠ Event.to_dict ex →
      EventList.add l e = (some .duplicateElementViolation, l)) := by
  have hf := find_of_filter_single Event.key l (Event.key e) ex h
  constructor
  · intro he
    unfold EventList.add
    rw [hf]
    exact if_pos he
  · intro he
    unfold EventList.add
    rw [hf]
    exact if_neg he

/-- A sample event for the C7 witness. -/
def ev1 : Event :=
  { created_by := none, created_ts := some 1,
    event_type := some "tou_event", event_id := "id1" }

theorem eventlist_add_duplicate_key_witness :
    ([ev1].filter (fun x => Event.key x == Event.key ev1) = [ev1]) ∧
    (Event.to_dict ev1 = Event.to_dict ev1 →
      EventList.add [ev1] ev1 = (none, [ev1])) ∧
    (Event.to_dict ev1 ≠ Event.to_dict ev1 →
      EventList.add [ev1] ev1
        = (some .duplicateElementViolation, [ev1])) :=
  ⟨by decide, eventlist_add_duplicate_key [ev1] ev1 ev1 (by decide)⟩

/-- Claim C6: in a valid 2-element list where removing `a` would leave `b` as
a single verified, non-primary element, `remove` raises
`PrimaryElementViolation` and the effective rollback (the `remove` path
rebinds rather than mutates) leaves both elements in place, findable by key,
with `count = 2`. -/
theorem remove_violation_restores (a b : PrimaryElement)
    (_hinit : PrimaryElementList.init [a, b] = .ok [a, b])
    (hk : (b.key == a.key) = false)
    (hbv : b.verified = true) (hbp : b.primary = false) :
    PrimaryElementList.remove [a, b] a.key
      = (some .primaryElementViolation, [a, b]) ∧
    ElementList.count (PrimaryElementList.remove [a, b] a.key).2 = 2 ∧
    ElementList.find PrimaryElement.key
      (PrimaryElementList.remove [a, b] a.key).2 a.key = .ok (some a) ∧
    ElementList.find PrimaryElement.key
      (PrimaryElementList.remove [a, b] a.key).2 b.key = .ok (some b) := by
  have hfila : ([a, b] : List PrimaryElement).filter
      (fun x => x.key == a.key) = [a] := by
    simp [List.filter_cons, hk]
  have hrm : PrimaryElementList.remove [a, b] a.key
      = (some Err.primaryElementViolation, [a, b]) := by
    unfold PrimaryElementList.remove
    rw [find_of_filter_single PrimaryElement.key [a, b] a.key a hfila]
    have hba : b ≠ a := by
      intro hba
      rw [hba] at hk
      simp at hk
    have hfilb : ([a, b] : List PrimaryElement).filter
        (fun this => this != a) = [b] := by
      simp [List.filter_cons, hba]
    show _check_primary [a, b]
        (([a, b] : List PrimaryElement).filter (fun this => this != a))
      = (some Err.primaryElementViolation, [a, b])
    rw [hfilb]
    unfold _check_primary _get_primary
    simp [List.filter_cons, hbv, hbp]
  refine ⟨hrm, ?_, ?_, ?_⟩
  · rw [hrm]
    rfl
  · rw [hrm]
    exact find_of_filter_single PrimaryElement.key [a, b] a.key a hfila
  · rw [hrm]
    have hab : (a.key == b.key) = false := by
      cases hab : a.key == b.key
      · rfl
      · exfalso
        rw [eq_of_beq hab] at hk
        simp at hk
    have hfilb2 : ([a, b] : List PrimaryElement).filter
        (fun x => x.key == b.key) = [b] := by
      simp [List.filter_cons, hab]
    exact find_of_filter_single PrimaryElement.key [a, b] b.key b hfilb2

theorem remove_violation_restores_witness :
    PrimaryElementList.init [mkPE "a@example.com" true true,
        mkPE "b@example.com" true false]
      = .ok [mkPE "a@example.com" true true,
        mkPE "b@example.com" true false] ∧
    PrimaryElementList.remove [mkPE "a@example.com" true true,
        mkPE "b@example.com" true false] (mkPE "a@example.com" true true).key
      = (some .primaryElementViolation,
        [mkPE "a@example.com" true true, mkPE "b@example.com" true false]) ∧
    ElementList.count (PrimaryElementList.remove
      [mkPE "a@example.com" true true, mkPE "b@example.com" true false]
      (mkPE "a@example.com" true true).key).2 = 2 :=
  ⟨by decide,
    (remove_violation_restores (mkPE "a@example.com" true true)
      (mkPE "b@example.com" true false) (by decide) (by decide) (by decide)
      (by decide)).1,
    (remove_violation_restores (mkPE "a@example.com" true true)
      (mkPE "b@example.com" true false) (by decide) (by decide) (by decide)
      (by decide)).2.1⟩

theorem filter_primary_map_set (l : List PrimaryElement) (k : Str)
    (m : PrimaryElement) (hm : l.filter (fun x => x.key == k) = [m]) :
    (l.map (set_primary_flag k)).filter (fun x => x.primary)
      = [{ m with primary := true }] := by
  have hmk : (m.key == k) = true := (mem_of_filter_key_single l k m hm).2
  rw [List.filter_map]
  have hcomp : ((fun x : PrimaryElement => x.primary) ∘ set_primary_flag k)
      = (fun x : PrimaryElement => x.key == k) := rfl
  rw [hcomp, hm]
  simp [set_primary_flag, hmk]

/-- Claim C10: on any list, valid or not, a `primary` setter call whose key
names the one element with that key, which is verified, succeeds and leaves
exactly the elements with that key primary: the filtered-primary sublist is
exactly the marked element, every other element is unmarked. -/
theorem set_primary_normalizes_flags (l : List PrimaryElement) (k : Str)
    (m : PrimaryElement) (hm : l.filter (fun x => x.key == k) = [m])
    (hmv : m.verified = true) :
    PrimaryElementList.set_primary l k = (none, l.map (set_primary_flag k)) ∧
    (PrimaryElementList.set_primary l k).2.filter (fun x => x.primary)
      = [{ m with primary := true }] := by
  have hsp : PrimaryElementList.set_primary l k
      = (none, l.map (set_primary_flag k)) := by
    unfold PrimaryElementList.set_primary
    rw [find_of_filter_single PrimaryElement.key l k m hm]
    show (if (!m.verified) = true then (some Err.primaryElementViolation, l)
      else (none, l.map (set_primary_flag k)))
      = (none, l.map (set_primary_flag k))
    rw [hmv]
    rfl
  refine ⟨hsp, ?_⟩
  rw [hsp]
  exact filter_primary_map_set l k m hm

theorem set_primary_normalizes_flags_witness :
    ([mkPE "a@example.com" true false, mkPE "b@example.com" false true].filter
      (fun x => x.key == "a@example.com")
      = [mkPE "a@example.com" true false]) ∧
    PrimaryElementList.set_primary
      [mkPE "a@example.com" true false, mkPE "b@example.com" false true]
      "a@example.com"
      = (none, [mkPE "a@example.com" true false,
          mkPE "b@example.com" false true].map
          (set_primary_flag "a@example.com")) ∧
    (PrimaryElementList.set_primary
      [mkPE "a@example.com" true false, mkPE "b@example.com" false true]
      "a@example.com").2.filter (fun x => x.primary)
      = [{ mkPE "a@example.com" true false with primary := true }] :=
  ⟨by decide,
    (set_primary_normalizes_flags
      [mkPE "a@example.com" true false, mkPE "b@example.com" false true]
      "a@example.com" (mkPE "a@example.com" true false)
      (by decide) (by decide)).1,
    (set_primary_normalizes_flags
      [mkPE "a@example.com" true false, mkPE "b@example.com" false true]
      "a@example.com" (mkPE "a@example.com" true false)
      (by decide) (by decide)).2⟩

theorem get_primary_after_set (l : List PrimaryElement) (k : Str)
    (m : PrimaryElement) (hm : l.filter (fun x => x.key == k) = [m])
    (hmv : m.verified = true) :
    _get_primary (l.map (set_primary_flag k))
      = .ok (some { m with primary := true }) := by
  obtain ⟨hml, hmk⟩ := mem_of_filter_key_single l k m hm
  have hfm : set_primary_flag k m ∈ l.map (set_primary_flag k) :=
    List.mem_map_of_mem _ hml
  have hne : l.map (set_primary_flag k) ≠ [] := List.ne_nil_of_mem hfm
  have hvmem : set_primary_flag k m
      ∈ (l.map (set_primary_flag k)).filter (fun x => x.verified) := by
    refine List.mem_filter.mpr ⟨hfm, ?_⟩
    simpa [set_primary_flag] using hmv
  have hvne : (l.map (set_primary_flag k)).filter (fun x => x.verified)
      ≠ [] := List.ne_nil_of_mem hvmem
  have hconj : l.filter (fun x : PrimaryElement => (x.key == k) && x.verified)
      = [m] := by
    have hsw : l.filter (fun x : PrimaryElement => (x.key == k) && x.verified)
        = l.filter (fun x : PrimaryElement => x.verified && (x.key == k)) :=
      List.filter_congr (fun x _ => Bool.and_comm _ _)
    rw [hsw, ← List.filter_filter, hm]
    simp [hmv]
  have hres : ((l.map (set_primary_flag k)).filter
      (fun x => x.verified)).filter (fun x => x.primary)
      = [{ m with primary := true }] := by
    rw [List.filter_filter, List.filter_map]
    have hcomp : ((fun a : PrimaryElement => a.primary && a.verified)
        ∘ set_primary_flag k)
        = (fun x : PrimaryElement => (x.key == k) && x.verified) := rfl
    rw [hcomp, hconj]
    simp [set_primary_flag, hmk]
  unfold _get_primary
  rw [if_neg hne, if_neg hvne, hres]

/-- Claim C5: with verified primary `a` and verified non-primary `b` in one
list, setting primary to the key of `b` succeeds: `a` loses its flag, `b`
gains it, and the `primary` getter returns `b`. Setting primary to an absent
key fails with `UserDBValueError`; setting it to the key of an unverified
element fails with `PrimaryElementViolation`; both failures happen before
the reassignment loop and leave every flag unchanged. -/
theorem set_primary_reassign_and_failures
    (l : List PrimaryElement) (a b c : PrimaryElement) (kAbsent : Str)
    (ha : a ∈ l) (_hav : a.verified = true) (hap : a.primary = true)
    (hbv : b.verified = true) (hbp : b.primary = false)
    (hb : l.filter (fun x => x.key == b.key) = [b])
    (habs : l.filter (fun x => x.key == kAbsent) = [])
    (hc : l.filter (fun x => x.key == c.key) = [c])
    (hcv : c.verified = false) :
    (PrimaryElementList.set_primary l b.key).1 = none ∧
    { a with primary := false } ∈ (PrimaryElementList.set_primary l b.key).2 ∧
    { b with primary := true } ∈ (PrimaryElementList.set_primary l b.key).2 ∧
    PrimaryElementList.primary (PrimaryElementList.set_primary l b.key).2
      = .ok (some { b with primary := true }) ∧
    PrimaryElementList.set_primary l kAbsent = (some .userDBValueError, l) ∧
    PrimaryElementList.set_primary l c.key
      = (some .primaryElementViolation, l) := by
  have hsp : PrimaryElementList.set_primary l b.key
      = (none, l.map (set_primary_flag b.key)) := by
    unfold PrimaryElementList.set_primary
    rw [find_of_filter_single PrimaryElement.key l b.key b hb]
    show (if (!b.verified) = true then (some Err.primaryElementViolation, l)
      else (none, l.map (set_primary_flag b.key)))
      = (none, l.map (set_primary_flag b.key))
    rw [hbv]
    rfl
  have hak : (a.key == b.key) = false := by
    cases hab : a.key == b.key
    · rfl
    · exfalso
      have hmem : a ∈ l.filter (fun x => x.key == b.key) :=
        List.mem_filter.mpr ⟨ha, hab⟩
      rw [hb, List.mem_singleton] at hmem
      rw [hmem, hbp] at hap
      exact Bool.false_ne_true hap
  refine ⟨?_, ?_, ?_, ?_, ?_, ?_⟩
  · rw [hsp]
  · rw [hsp]
    have h1 := List.mem_map_of_mem (set_primary_flag b.key) ha
    have h2 : set_primary_flag b.key a = { a with primary := false } := by
      simp [set_primary_flag, hak]
    rw [h2] at h1
    exact h1
  · rw [hsp]
    have h1 := List.mem_map_of_mem (set_primary_flag b.key)
      (mem_of_filter_key_single l b.key b hb).1
    have h2 : set_primary_flag b.key b = { b with primary := true } := by
      simp [set_primary_flag]
    rw [h2] at h1
    exact h1
  · rw [hsp]
    exact get_primary_after_set l b.key b hb hbv
  · unfold PrimaryElementList.set_primary
    rw [find_of_filter_nil PrimaryElement.key l kAbsent habs]
  · unfold PrimaryElementList.set_primary
    rw [find_of_filter_single PrimaryElement.key l c.key c hc]
    show (if (!c.verified) = true then (some Err.primaryElementViolation, l)
      else (none, l.map (set_primary_flag c.key)))
      = (some Err.primaryElementViolation, l)
    rw [hcv]
    rfl

/-- The three-element list for the C5 witness: a verified primary address, a
verified non-primary one, and an unverified one. -/
def pl3 : List PrimaryElement :=
  [mkPE "a@example.com" true true, mkPE "b@example.com" true false,
    mkPE "c@example.com" false false]

theorem set_primary_reassign_and_failures_witness :
    (mkPE "a@example.com" true true ∈ pl3) ∧
    (pl3.filter (fun x => x.key == (mkPE "b@example.com" true false).key)
      = [mkPE "b@example.com" true false]) ∧
    (pl3.filter (fun x => x.key == "zzz") = []) ∧
    (pl3.filter (fun x => x.key == (mkPE "c@example.com" false false).key)
      = [mkPE "c@example.com" false false]) ∧
    ((PrimaryElementList.set_primary pl3
        (mkPE "b@example.com" true false).key).1 = none ∧
      { mkPE "a@example.com" true true with primary := false }
        ∈ (PrimaryElementList.set_primary pl3
          (mkPE "b@example.com" true false).key).2 ∧
      { mkPE "b@example.com" true false with primary := true }
        ∈ (PrimaryElementList.set_primary pl3
          (mkPE "b@example.com" true false).key).2 ∧
      PrimaryElementList.primary (PrimaryElementList.set_primary pl3
          (mkPE "b@example.com" true false).key).2
        = .ok (some { mkPE "b@example.com" true false with primary := true }) ∧
      PrimaryElementList.set_primary pl3 "zzz"
        = (some .userDBValueError, pl3) ∧
      PrimaryElementList.set_primary pl3
          (mkPE "c@example.com" false false).key
        = (some .primaryElementViolation, pl3)) :=
  ⟨by decide, by decide, by decide, by decide,
    set_primary_reassign_and_failures pl3 (mkPE "a@example.com" true true)
      (mkPE "b@example.com" true false) (mkPE "c@example.com" false false)
      "zzz" (by decide) (by decide) (by decide) (by decide) (by decide)
      (by decide) (by decide) (by decide) (by decide)⟩

theorem check_ok_of_init (l l' : List PrimaryElement)
    (h : PrimaryElementList.init l = .ok l') : check_ok l' = true := by
  unfold PrimaryElementList.init at h
  cases hg : _get_primary l with
  | error e => rw [hg] at h; exact Except.noConfusion h
  | ok v =>
    rw [hg] at h
    simp only [Except.ok.injEq] at h
    rw [← h]
    unfold check_ok
    rw [hg]

theorem check_ok_of_add (l : List PrimaryElement) (e : PrimaryElement)
    (l' : List PrimaryElement)
    (h : PrimaryElementList.add l e = (none, l')) : check_ok l' = true := by
  unfold PrimaryElementList.add at h
  cases hf : ElementList.find PrimaryElement.key l e.key with
  | error er => rw [hf] at h; simp at h
  | ok o =>
    cases o with
    | some m => rw [hf] at h; simp at h
    | none =>
      rw [hf] at h
      unfold _check_primary at h
      cases hg : _get_primary (l ++ [e]) with
      | error er => rw [hg] at h; simp at h
      | ok v =>
        rw [hg] at h
        simp only [Prod.mk.injEq] at h
        rw [← h.2]
        unfold check_ok
        rw [hg]

theorem check_ok_of_remove (l : List PrimaryElement) (k : Str)
    (l' : List PrimaryElement)
    (h : PrimaryElementList.remove l k = (none, l')) : check_ok l' = true := by
  unfold PrimaryElementList.remove at h
  cases hf : ElementList.find PrimaryElement.key l k with
  | error er => rw [hf] at h; simp at h
  | ok o =>
    cases o with
    | none => rw [hf] at h; simp at h
    | some m =>
      rw [hf] at h
      have h2 : _check_primary l (l.filter (fun this => this != m))
          = (none, l') := h
      unfold _check_primary at h2
      cases hg : _get_primary (l.filter (fun this => this != m)) with
      | error er => rw [hg] at h2; simp at h2
      | ok v =>
        rw [hg] at h2
        simp only [Prod.mk.injEq] at h2
        rw [← h2.2]
        unfold check_ok
        rw [hg]

theorem check_ok_of_set_primary (l : List PrimaryElement) (k : Str)
    (l' : List PrimaryElement)
    (h : PrimaryElementList.set_primary l k = (none, l')) :
    check_ok l' = true := by
  unfold PrimaryElementList.set_primary at h
  cases hf : ElementList.find PrimaryElement.key l k with
  | error er => rw [hf] at h; simp at h
  | ok o =>
    cases o with
    | none => rw [hf] at h; simp at h
    | some m =>
      rw [hf] at h
      have hm : l.filter (fun x => x.key == k) = [m] :=
        filter_single_of_find_some PrimaryElement.key l k m hf
      have h2 : (if (!m.verified) = true
          then (some Err.primaryElementViolation, l)
          else (none, l.map (set_primary_flag k))) = (none, l') := h
      cases hv : m.verified with
      | false =>
        rw [hv] at h2
        simp at h2
      | true =>
        rw [hv] at h2
        simp only [Bool.not_true, Bool.false_eq_true, if_false,
          Prod.mk.injEq] at h2
        rw [← h2.2]
        unfold check_ok
        rw [get_primary_after_set l k m hm hv]

theorem check_ok_of_reachable (l : List PrimaryElement) (h : Reachable l) :
    check_ok l = true := by
  induction h with
  | init l0 l' h0 => exact check_ok_of_init l0 l' h0
  | add l0 e l' _ h0 _ => exact check_ok_of_add l0 e l' h0
  | remove l0 k l' _ h0 _ => exact check_ok_of_remove l0 k l' h0
  | set_primary l0 k l' _ h0 _ => exact check_ok_of_set_primary l0 k l' h0

theorem invariant_of_check_ok (l : List PrimaryElement)
    (h : check_ok l = true) :
    ((l.filter (fun x => x.verified)).length = 0 →
      (l.filter (fun x => x.primary)).length = 0) ∧
    (0 < (l.filter (fun x => x.verified)).length →
      (l.filter (fun x => x.verified && x.primary)).length = 1) := by
  unfold check_ok _get_primary at h
  by_cases hnil : l = []
  · subst hnil; simp
  · rw [if_neg hnil] at h
    by_cases hv : l.filter (fun x => x.verified) = []
    · rw [if_pos hv] at h
      by_cases hp : (l.filter (fun e => e.primary)).length > 0
      · rw [if_pos hp] at h
        simp at h
      · rw [if_neg hp] at h
        constructor
        · intro _
          omega
        · intro hpos
          rw [hv] at hpos
          simp at hpos
    · rw [if_neg hv] at h
      rcases hres : (l.filter (fun x => x.verified)).filter
          (fun x => x.primary) with _ | ⟨x, _ | ⟨y, zs⟩⟩
      · rw [hres] at h; simp at h
      · constructor
        · intro h0
          exact absurd (List.length_eq_zero.mp h0) hv
        · intro _
          have hsw : l.filter (fun x : PrimaryElement =>
              x.verified && x.primary)
              = l.filter (fun x : PrimaryElement =>
                x.primary && x.verified) :=
            List.filter_congr (fun x _ => Bool.and_comm _ _)
          rw [hsw, ← List.filter_filter, hres]
          rfl
      · rw [hres] at h; simp at h

/-- Claim C4 (amended): every state accepted by construction or reached
through successful `add`, `remove` or `primary` setter calls satisfies the
invariant the code enforces: with zero verified elements no element is
primary; with at least one verified element exactly one VERIFIED element is
primary (stray primary flags on unverified elements are not excluded). -/
theorem reachable_primary_invariant (l : List PrimaryElement)
    (h : Reachable l) :
    ((l.filter (fun x => x.verified)).length = 0 →
      (l.filter (fun x => x.primary)).length = 0) ∧
    (0 < (l.filter (fun x => x.verified)).length →
      (l.filter (fun x => x.verified && x.primary)).length = 1) :=
  invariant_of_check_ok l (check_ok_of_reachable l h)

theorem reachable_primary_invariant_witness :
    Reachable [mkPE "a@example.com" true true] ∧
    ((([mkPE "a@example.com" true true].filter
        (fun x => x.verified)).length = 0 →
      ([mkPE "a@example.com" true true].filter
        (fun x => x.primary)).length = 0) ∧
    (0 < ([mkPE "a@example.com" true true].filter
        (fun x => x.verified)).length →
      ([mkPE "a@example.com" true true].filter
        (fun x => x.verified && x.primary)).length = 1)) :=
  ⟨Reachable.init [mkPE "a@example.com" true true]
      [mkPE "a@example.com" true true] rfl,
    reachable_primary_invariant [mkPE "a@example.com" true true]
      (Reachable.init [mkPE "a@example.com" true true]
        [mkPE "a@example.com" true true] rfl)⟩

/-- Counterexample to claim C4 as stated: the constructor accepts a list
with one verified primary element and one unverified element carrying a
stray primary flag, and that accepted state has at least one verified
element but TWO elements with `is_primary = true` over the whole list, not
exactly one. -/
theorem whole_list_primary_uniqueness_fails :
    PrimaryElementList.init
      [mkPE "a@example.com" true true, mkPE "c@example.com" false true]
      = .ok [mkPE "a@example.com" true true,
        mkPE "c@example.com" false true] ∧
    0 < ([mkPE "a@example.com" true true,
      mkPE "c@example.com" false true].filter
      (fun x => x.verified)).length ∧
    ([mkPE "a@example.com" true true, mkPE "c@example.com" false true].filter
      (fun x => x.primary)).length = 2 :=
  ⟨by decide, by decide, by decide⟩

end EduidUserdb
